import Mathlib

/-!
Verification of the cutt editor core (`src/editor.rs`): cursor navigation,
viewport scrolling, and row/status-bar rendering, shallowly embedded as pure
functions over an explicit editor state.

The external collaborators (`Document`, `Row`, `Terminal`) are represented by
their contracts: a document is a list of rows, a row is a list of characters,
and the terminal size is passed to each operation as an argument, mirroring
the fact that the source reads `self.terminal.size()` fresh on each use.
Terminal output is modelled as a list of output events.
-/

namespace Cutt

/-- Constant `STATUS_BG_COLOR: color::Rgb = color::Rgb(0, 0, 0)`. -/
def STATUS_BG_COLOR : Nat × Nat × Nat := (0, 0, 0)

/-- Constant `PAPER_BG_COLOR: color::Rgb = color::Rgb(20, 20, 20)`. -/
def PAPER_BG_COLOR : Nat × Nat × Nat := (20, 20, 20)

/-- Constant `PAPER_WIDTH: usize = 80`. -/
def PAPER_WIDTH : Nat := 80

/-- Document-relative coordinates: `Position { x, y }` in the source. -/
structure Position where
  x : Nat
  y : Nat
  deriving DecidableEq

/-- The key events the editor core distinguishes (`termion::event::Key`
restricted to the variants matched in `process_keypress`; `other` stands for
every remaining variant, which falls into the wildcard arm). `endK` embeds
the source's `Key::End`. -/
inductive Key where
  | up
  | down
  | left
  | right
  | pageUp
  | pageDown
  | home
  | endK
  | ctrl (c : Char)
  | char (c : Char)
  | other
  deriving DecidableEq

/-- The editor state (`struct Editor`), minus the owned terminal handle: the
terminal's reported size is passed to each operation as an argument. The
document is the external collaborator's row list. -/
structure Editor where
  should_quit : Bool
  cursor_position : Position
  offset : Position
  document : List (List Char)
  deriving DecidableEq

/-- Translation of `self.document.row(i)` of the document collaborator:
lookup by index
returning an optional row. -/
def row (doc : List (List Char)) (i : Nat) : Option (List Char) :=
  doc.get? i

/-- Translation of `self.document.row(i).map_or(0, Row::len)`: the length of
row `i`, taking
0 when the row is absent. -/
def rowLen (doc : List (List Char)) (i : Nat) : Nat :=
  match row doc i with
  | some r => r.length
  | none => 0

/-- Translation of `Editor::move_cursor` (src/editor.rs:118-181), arm by arm.
`terminal_height` is `self.terminal.size().height`; all `usize` arithmetic
becomes `Nat` arithmetic (`saturating_sub` is truncated subtraction). -/
def move_cursor (terminal_height : Nat) (key : Key) (e : Editor) : Editor :=
  let y0 := e.cursor_position.y
  let x0 := e.cursor_position.x
  let height := e.document.length - 1
  let width := rowLen e.document y0
  let p : Nat × Nat :=
    match key with
    | Key.up => (x0, y0 - 1)
    | Key.down => if y0 < height then (x0, y0 + 1) else (x0, y0)
    | Key.left =>
        if x0 > 0 then (x0 - 1, y0)
        else if y0 > 0 then (rowLen e.document (y0 - 1), y0 - 1)
        else (x0, y0)
    | Key.right =>
        if x0 < width then (x0 + 1, y0)
        else if y0 < height then (0, y0 + 1)
        else (x0, y0)
    | Key.pageUp =>
        (x0, if y0 > terminal_height then y0 - terminal_height else 0)
    | Key.pageDown =>
        (x0, if y0 + terminal_height < height then y0 + terminal_height
             else height)
    | Key.home => (0, y0)
    | Key.endK => (width, y0)
    | _ => (x0, y0)
  let width1 := rowLen e.document p.2
  let x1 := if p.1 > width1 then width1 else p.1
  { e with cursor_position := ⟨x1, p.2⟩ }

/-- Translation of `Editor::scroll` (src/editor.rs:98-116). Here `width` and
`height` are the
terminal's reported dimensions; saturating `usize` arithmetic becomes `Nat`
arithmetic. -/
def scroll (width height : Nat) (e : Editor) : Editor :=
  let x := e.cursor_position.x
  let y := e.cursor_position.y
  let oy :=
    if y < e.offset.y then y
    else if y ≥ e.offset.y + height then y - height + 1
    else e.offset.y
  let ox :=
    if x < e.offset.x then x
    else if x ≥ e.offset.x + width then x - width + 1
    else e.offset.x
  { e with offset := ⟨ox, oy⟩ }

/-- Translation of `Editor::process_keypress` (src/editor.rs:80-96), minus
the terminal
read: the pressed key is an argument. `Key::Ctrl('c')` sets `should_quit`,
the eight navigation keys go to `move_cursor`, anything else is ignored, and
`scroll` runs afterwards in every case. -/
def process_keypress (width height : Nat) (key : Key) (e : Editor) : Editor :=
  let e1 :=
    match key with
    | Key.ctrl c => if c = 'c' then { e with should_quit := true } else e
    | Key.up | Key.down | Key.left | Key.right
    | Key.pageUp | Key.pageDown | Key.endK | Key.home =>
        move_cursor height key e
    | Key.char _ => e
    | Key.other => e
  scroll width height e1

/-- The state built by `Editor::default()`: `should_quit: false`, both
positions at the origin, and whatever document was loaded. -/
def init_editor (doc : List (List Char)) : Editor :=
  { should_quit := false
    cursor_position := ⟨0, 0⟩
    offset := ⟨0, 0⟩
    document := doc }

/-- One run of the control loop's key-processing steps from the initial
state, with a fixed reported terminal size: `run` reads a key and calls
`process_keypress` until `should_quit`. -/
def run_keys (width height : Nat) (doc : List (List Char))
    (ks : List Key) : Editor :=
  ks.foldl (fun e k => process_keypress width height k e) (init_editor doc)

/-- One terminal output event: a background-color change, a reset, or
printed text. -/
inductive OutEvent where
  | setBg (c : Nat × Nat × Nat)
  | resetBg
  | text (s : List Char)
  deriving DecidableEq

/-- Carriage return + line feed, the `\r\n` the source appends to each
printed row. -/
def CRLF : List Char := [Char.ofNat 13, Char.ofNat 10]

/-- Modelled from the spec: `Row::render(start, end)` of the external row
collaborator returns the printable text for the sub-range `[start, end)`
clipped to the row's actual length, empty for out-of-range requests. -/
def render (r : List Char) (start stop : Nat) : List Char :=
  let stop1 := min stop r.length
  let start1 := min start stop1
  (r.drop start1).take (stop1 - start1)

/-- Translation of `Editor::draw_row` (src/editor.rs:194-213) as the list of
output events
it emits. `width` is `self.terminal.size().width`, `offset_x` is
`self.offset.x`. -/
def draw_row (width offset_x : Nat) (r : List Char) : List OutEvent :=
  let start := offset_x
  let stop := offset_x + width
  let len := r.length
  if start < PAPER_WIDTH then
    [OutEvent.setBg PAPER_BG_COLOR,
     OutEvent.text (render r start PAPER_WIDTH),
     OutEvent.text (List.replicate
       (if start > len then PAPER_WIDTH - start else PAPER_WIDTH - len) ' '),
     OutEvent.resetBg,
     OutEvent.text (render r PAPER_WIDTH stop ++ CRLF)]
  else
    [OutEvent.text (render r start stop ++ CRLF)]

/-- Translation of `Editor::draw_status_bar` (src/editor.rs:231-236) as the
list of output
events it emits: `"|".repeat(width)` under `STATUS_BG_COLOR`, then reset. -/
def draw_status_bar (width : Nat) : List OutEvent :=
  [OutEvent.setBg STATUS_BG_COLOR,
   OutEvent.text (List.replicate width '|'),
   OutEvent.resetBg]

/-! ### Helper lemmas -/

/-- The empty document has no rows, so every row length reads as 0. -/
@[simp]
theorem rowLen_nil (i : Nat) : rowLen [] i = 0 :=
  rfl

/-- The function `scroll` only writes `offset`: every other field is
copied. -/
theorem scroll_frame (width height : Nat) (e : Editor) :
    (scroll width height e).cursor_position = e.cursor_position ∧
    (scroll width height e).should_quit = e.should_quit ∧
    (scroll width height e).document = e.document := by
  obtain ⟨sq, c, o, d⟩ := e
  simp [scroll]

/-- The function `move_cursor` only writes `cursor_position`: every other
field is
copied. -/
theorem move_cursor_frame (terminal_height : Nat) (key : Key) (e : Editor) :
    (move_cursor terminal_height key e).offset = e.offset ∧
    (move_cursor terminal_height key e).should_quit = e.should_quit ∧
    (move_cursor terminal_height key e).document = e.document := by
  obtain ⟨sq, c, o, d⟩ := e
  simp [move_cursor]

/-- With a positive terminal width and height, one `scroll` brings the
cursor inside the viewport on both axes. -/
theorem scroll_visible_after (width height : Nat)
    (hw : 1 ≤ width) (hh : 1 ≤ height) (e : Editor) :
    (scroll width height e).offset.y ≤ e.cursor_position.y ∧
    e.cursor_position.y < (scroll width height e).offset.y + height ∧
    (scroll width height e).offset.x ≤ e.cursor_position.x ∧
    e.cursor_position.x < (scroll width height e).offset.x + width := by
  obtain ⟨sq, ⟨cx, cy⟩, ⟨ox, oy⟩, d⟩ := e
  simp only [scroll]
  split_ifs <;> simp_all <;> omega

/-- When the cursor is already inside the viewport on both axes, `scroll`
is the identity. -/
theorem scroll_noop_of_visible (width height : Nat) (e : Editor)
    (hy1 : e.offset.y ≤ e.cursor_position.y)
    (hy2 : e.cursor_position.y < e.offset.y + height)
    (hx1 : e.offset.x ≤ e.cursor_position.x)
    (hx2 : e.cursor_position.x < e.offset.x + width) :
    scroll width height e = e := by
  obtain ⟨sq, ⟨cx, cy⟩, ⟨ox, oy⟩, d⟩ := e
  simp only [scroll]
  simp_all
  split_ifs <;> omega

/-! ### C2: scroll keeps the cursor inside the viewport -/

/-- A concrete editor state for the C2 counterexample: cursor (100, 5),
offset (22, 3). -/
def c2_editor : Editor :=
  { should_quit := false
    cursor_position := ⟨100, 5⟩
    offset := ⟨22, 3⟩
    document := [] }

/-- C2 (counterexample): with terminal width 80 and height 0, cursor
(100, 5) and offset (22, 3), one `scroll` yields offset (22, 6): the cursor
row 5 is NOT inside [6, 6 + 0), and offset.x is 22, not 21, even though the
width is 80 and cursor.x is 100. So the claim fails for this terminal size
and offset. -/
theorem scroll_viewport_counterexample :
    ¬ (((scroll 80 0 c2_editor).offset.y ≤ c2_editor.cursor_position.y ∧
        c2_editor.cursor_position.y < (scroll 80 0 c2_editor).offset.y + 0 ∧
        (scroll 80 0 c2_editor).offset.x ≤ c2_editor.cursor_position.x ∧
        c2_editor.cursor_position.x < (scroll 80 0 c2_editor).offset.x + 80) ∧
       (scroll 80 0 c2_editor).offset.x = 21) := by
  decide

/-- C2 (amended): for every cursor position, offset, and terminal size with
width ≥ 1 and height ≥ 1, after one `scroll` the cursor lies inside the
viewport on each axis independently: offset.y ≤ cursor.y < offset.y + height
and offset.x ≤ cursor.x < offset.x + width; and with terminal width 80,
cursor.x = 100 and offset.x ≤ 20 (cursor beyond the right edge), the update
sets offset.x = 100 − 80 + 1 = 21. -/
theorem scroll_keeps_cursor_in_viewport (width height : Nat)
    (hw : 1 ≤ width) (hh : 1 ≤ height) (e : Editor) :
    ((scroll width height e).offset.y ≤ e.cursor_position.y ∧
     e.cursor_position.y < (scroll width height e).offset.y + height ∧
     (scroll width height e).offset.x ≤ e.cursor_position.x ∧
     e.cursor_position.x < (scroll width height e).offset.x + width) ∧
    (width = 80 → e.cursor_position.x = 100 → e.offset.x ≤ 20 →
      (scroll width height e).offset.x = 21) := by
  refine ⟨scroll_visible_after width height hw hh e, ?_⟩
  intro hw80 hx100 hox
  obtain ⟨sq, ⟨cx, cy⟩, ⟨ox, oy⟩, d⟩ := e
  simp_all only [scroll]
  simp_all
  omega

/-- A concrete editor state for the C2 witness: cursor (100, 0) with the
viewport still at the origin. -/
def c2w_editor : Editor :=
  { should_quit := false
    cursor_position := ⟨100, 0⟩
    offset := ⟨0, 0⟩
    document := [] }

/-- C2 witness: the amended theorem at width 80, height 24, cursor (100, 0),
offset (0, 0): the scroll update brings the cursor into view (and in
particular sets offset.x = 21). -/
theorem scroll_keeps_cursor_in_viewport_witness :
    (1 : Nat) ≤ 80 ∧ (1 : Nat) ≤ 24 ∧
    (((scroll 80 24 c2w_editor).offset.y ≤ c2w_editor.cursor_position.y ∧
      c2w_editor.cursor_position.y < (scroll 80 24 c2w_editor).offset.y + 24 ∧
      (scroll 80 24 c2w_editor).offset.x ≤ c2w_editor.cursor_position.x ∧
      c2w_editor.cursor_position.x <
        (scroll 80 24 c2w_editor).offset.x + 80) ∧
     (80 = 80 → c2w_editor.cursor_position.x = 100 →
      c2w_editor.offset.x ≤ 20 → (scroll 80 24 c2w_editor).offset.x = 21)) :=
  ⟨by decide, by decide,
   scroll_keeps_cursor_in_viewport 80 24 (by decide) (by decide) c2w_editor⟩

/-! ### C4: scroll is idempotent -/

/-- A concrete editor state for the C4 counterexample: everything at the
origin. -/
def c4_editor : Editor :=
  { should_quit := false
    cursor_position := ⟨0, 0⟩
    offset := ⟨0, 0⟩
    document := [] }

/-- C4 (counterexample): with terminal width 0 and height 0 and everything
at the origin, the first `scroll` moves the offset to (1, 1) and the second
moves it back to (0, 0): applying the update twice does not yield the same
offset as applying it once. -/
theorem scroll_idempotent_counterexample :
    ¬ ((scroll 0 0 (scroll 0 0 c4_editor)).offset =
       (scroll 0 0 c4_editor).offset) := by
  decide

/-- C4 (amended): for every cursor position, offset, and terminal size with
width ≥ 1 and height ≥ 1, applying the scroll update twice in a row with the
cursor and terminal size unchanged yields the same state (hence the same
offset) as applying it once. -/
theorem scroll_idempotent (width height : Nat)
    (hw : 1 ≤ width) (hh : 1 ≤ height) (e : Editor) :
    scroll width height (scroll width height e) = scroll width height e := by
  have hvis := scroll_visible_after width height hw hh e
  have hc := (scroll_frame width height e).1
  exact scroll_noop_of_visible width height (scroll width height e)
    (by rw [hc]; exact hvis.1) (by rw [hc]; exact hvis.2.1)
    (by rw [hc]; exact hvis.2.2.1) (by rw [hc]; exact hvis.2.2.2)

/-- C4 witness: the amended theorem at width 80, height 24, cursor (100, 5),
offset (22, 3). -/
theorem scroll_idempotent_witness :
    (1 : Nat) ≤ 80 ∧ (1 : Nat) ≤ 24 ∧
    scroll 80 24 (scroll 80 24 c2_editor) = scroll 80 24 c2_editor :=
  ⟨by decide, by decide,
   scroll_idempotent 80 24 (by decide) (by decide) c2_editor⟩

/-! ### C5: scroll does not move a viewport that already shows the cursor -/

/-- C5: whenever cursor.y lies within [offset.y, offset.y + height) and
cursor.x lies within [offset.x, offset.x + width), `scroll` leaves both
components of the offset unchanged. -/
theorem scroll_offset_unchanged_when_visible (width height : Nat) (e : Editor)
    (hy1 : e.offset.y ≤ e.cursor_position.y)
    (hy2 : e.cursor_position.y < e.offset.y + height)
    (hx1 : e.offset.x ≤ e.cursor_position.x)
    (hx2 : e.cursor_position.x < e.offset.x + width) :
    (scroll width height e).offset.x = e.offset.x ∧
    (scroll width height e).offset.y = e.offset.y := by
  rw [scroll_noop_of_visible width height e hy1 hy2 hx1 hx2]
  exact ⟨rfl, rfl⟩

/-- A concrete editor state for the C5 witness: cursor (30, 10) visible in
the viewport anchored at offset (25, 8). -/
def c5_editor : Editor :=
  { should_quit := false
    cursor_position := ⟨30, 10⟩
    offset := ⟨25, 8⟩
    document := [] }

/-- C5 witness: the theorem at width 80, height 24, cursor (30, 10), offset
(25, 8): the cursor is visible, so the offset stays (25, 8). -/
theorem scroll_offset_unchanged_when_visible_witness :
    c5_editor.offset.y ≤ c5_editor.cursor_position.y ∧
    c5_editor.cursor_position.y < c5_editor.offset.y + 24 ∧
    c5_editor.offset.x ≤ c5_editor.cursor_position.x ∧
    c5_editor.cursor_position.x < c5_editor.offset.x + 80 ∧
    ((scroll 80 24 c5_editor).offset.x = c5_editor.offset.x ∧
     (scroll 80 24 c5_editor).offset.y = c5_editor.offset.y) :=
  ⟨by decide, by decide, by decide, by decide,
   scroll_offset_unchanged_when_visible 80 24 c5_editor
     (by decide) (by decide) (by decide) (by decide)⟩

/-! ### C10: move_cursor writes only the cursor, scroll writes only the
offset -/

/-- C10: for every state, key, and terminal size, `move_cursor` modifies only
`cursor_position` (offset, should_quit, and the document are unchanged), and
`scroll` modifies only `offset` (cursor_position and should_quit are
unchanged, and so is the document). -/
theorem move_cursor_scroll_frame (width height terminal_height : Nat)
    (key : Key) (e : Editor) :
    (move_cursor terminal_height key e).offset = e.offset ∧
    (move_cursor terminal_height key e).should_quit = e.should_quit ∧
    (move_cursor terminal_height key e).document = e.document ∧
    (scroll width height e).cursor_position = e.cursor_position ∧
    (scroll width height e).should_quit = e.should_quit ∧
    (scroll width height e).document = e.document := by
  obtain ⟨sq, c, o, d⟩ := e
  simp [move_cursor, scroll]

/-! ### C6: PageUp semantics -/

/-- C6: for every cursor position and terminal height, PageUp yields
y′ = y − terminal_height when y > terminal_height and y′ = 0 otherwise
(strict comparison before subtracting), followed by the column clamp at the
new row: x′ = min x (length of row y′). -/
theorem move_cursor_page_up (terminal_height : Nat) (e : Editor) :
    (move_cursor terminal_height Key.pageUp e).cursor_position.y =
      (if e.cursor_position.y > terminal_height then
        e.cursor_position.y - terminal_height
      else 0) ∧
    (move_cursor terminal_height Key.pageUp e).cursor_position.x =
      min e.cursor_position.x
        (rowLen e.document
          (if e.cursor_position.y > terminal_height then
            e.cursor_position.y - terminal_height
          else 0)) := by
  obtain ⟨sq, ⟨cx, cy⟩, o, d⟩ := e
  simp only [move_cursor]
  split_ifs <;> simp_all <;> omega

/-! ### C1: move_cursor preserves the cursor invariant -/

/-- C1: for every editor state satisfying the cursor invariant
(y ≤ document.len() − 1 saturating, x ≤ length of row y taking 0 when the
row is absent) and every key, after `move_cursor` the new cursor satisfies
x ≤ length(row(y)) (taking 0 when row y is absent), y ≤ document.len() − 1
when the document is non-empty, and y = 0 when it is empty. In particular
this holds for the eight navigation keys. -/
theorem move_cursor_preserves_invariant (terminal_height : Nat) (key : Key)
    (e : Editor)
    (hy : e.cursor_position.y ≤ e.document.length - 1)
    (hx : e.cursor_position.x ≤ rowLen e.document e.cursor_position.y) :
    (move_cursor terminal_height key e).cursor_position.x ≤
      rowLen e.document
        (move_cursor terminal_height key e).cursor_position.y ∧
    (e.document ≠ [] →
      (move_cursor terminal_height key e).cursor_position.y ≤
        e.document.length - 1) ∧
    (e.document = [] →
      (move_cursor terminal_height key e).cursor_position.y = 0) := by
  obtain ⟨sq, ⟨cx, cy⟩, o, d⟩ := e
  have hy' : cy ≤ d.length - 1 := hy
  have hx' : cx ≤ rowLen d cy := hx
  clear hy hx
  cases key <;> simp only [move_cursor] <;> (try split_ifs) <;>
    refine ⟨?_, fun hne => ?_, fun hnil => ?_⟩ <;>
    (try subst hnil) <;> simp_all <;> omega

/-- A concrete editor state for the C1 witness: two rows of lengths 3 and 1,
cursor at the end of the first row. -/
def c1_editor : Editor :=
  { should_quit := false
    cursor_position := ⟨3, 0⟩
    offset := ⟨0, 0⟩
    document := [['a', 'b', 'c'], ['d']] }

/-- C1 witness: the theorem at terminal height 24 and key Down on a cursor
at (3, 0) over rows of lengths [3, 1]: the landing row is shorter, and the
clamped cursor still satisfies the invariant. -/
theorem move_cursor_preserves_invariant_witness :
    c1_editor.cursor_position.y ≤ c1_editor.document.length - 1 ∧
    c1_editor.cursor_position.x ≤
      rowLen c1_editor.document c1_editor.cursor_position.y ∧
    ((move_cursor 24 Key.down c1_editor).cursor_position.x ≤
      rowLen c1_editor.document
        (move_cursor 24 Key.down c1_editor).cursor_position.y ∧
     (c1_editor.document ≠ [] →
       (move_cursor 24 Key.down c1_editor).cursor_position.y ≤
         c1_editor.document.length - 1) ∧
     (c1_editor.document = [] →
       (move_cursor 24 Key.down c1_editor).cursor_position.y = 0)) :=
  ⟨by decide, by decide,
   move_cursor_preserves_invariant 24 Key.down c1_editor
     (by decide) (by decide)⟩

/-! ### C3: Left/Right at row boundaries, and their inverse law -/

/-- C3: Left at (x = 0, y > 0) yields (length(row(y−1)), y−1), Right at
(x = length(row(y)), y < document.len() − 1) yields (0, y+1), and the two
moves are exact inverses: Right then Left from end-of-row returns to the
original position, and Left then Right from column 0 returns to the
original position (under the cursor invariant's bound y ≤ len − 1). -/
theorem move_cursor_left_right_edges (terminal_height : Nat) (e : Editor) :
    (e.cursor_position.x = 0 → 0 < e.cursor_position.y →
      (move_cursor terminal_height Key.left e).cursor_position =
        ⟨rowLen e.document (e.cursor_position.y - 1),
         e.cursor_position.y - 1⟩) ∧
    (e.cursor_position.x = rowLen e.document e.cursor_position.y →
      e.cursor_position.y < e.document.length - 1 →
      (move_cursor terminal_height Key.right e).cursor_position =
        ⟨0, e.cursor_position.y + 1⟩) ∧
    (e.cursor_position.x = rowLen e.document e.cursor_position.y →
      e.cursor_position.y < e.document.length - 1 →
      move_cursor terminal_height Key.left
        (move_cursor terminal_height Key.right e) = e) ∧
    (e.cursor_position.x = 0 → 0 < e.cursor_position.y →
      e.cursor_position.y ≤ e.document.length - 1 →
      move_cursor terminal_height Key.right
        (move_cursor terminal_height Key.left e) = e) := by
  obtain ⟨sq, ⟨cx, cy⟩, o, d⟩ := e
  refine ⟨fun h0 hpos => ?_, fun hx hy => ?_, fun hx hy => ?_,
    fun h0 hpos hy => ?_⟩ <;>
    simp only [move_cursor] <;> split_ifs <;> simp_all <;> omega

/-- A concrete editor state for the C3 witness: rows of lengths [1, 0, 1]
with the cursor at (0, 1), which is both column 0 and the (empty) middle
row's end. -/
def c3_editor : Editor :=
  { should_quit := false
    cursor_position := ⟨0, 1⟩
    offset := ⟨0, 0⟩
    document := [['a'], [], ['b']] }

/-- C3 witness: the theorem at terminal height 24 on the cursor (0, 1) over
rows of lengths [1, 0, 1]: Left lands at the end of row 0, Right lands at
the start of row 2, and both roundtrips return to (0, 1). -/
theorem move_cursor_left_right_edges_witness :
    c3_editor.cursor_position.x = 0 ∧ 0 < c3_editor.cursor_position.y ∧
    c3_editor.cursor_position.x =
      rowLen c3_editor.document c3_editor.cursor_position.y ∧
    c3_editor.cursor_position.y < c3_editor.document.length - 1 ∧
    c3_editor.cursor_position.y ≤ c3_editor.document.length - 1 ∧
    (move_cursor 24 Key.left c3_editor).cursor_position =
      ⟨rowLen c3_editor.document (c3_editor.cursor_position.y - 1),
       c3_editor.cursor_position.y - 1⟩ ∧
    (move_cursor 24 Key.right c3_editor).cursor_position =
      ⟨0, c3_editor.cursor_position.y + 1⟩ ∧
    move_cursor 24 Key.left (move_cursor 24 Key.right c3_editor) =
      c3_editor ∧
    move_cursor 24 Key.right (move_cursor 24 Key.left c3_editor) =
      c3_editor :=
  ⟨by decide, by decide, by decide, by decide, by decide,
   (move_cursor_left_right_edges 24 c3_editor).1 (by decide) (by decide),
   (move_cursor_left_right_edges 24 c3_editor).2.1 (by decide) (by decide),
   (move_cursor_left_right_edges 24 c3_editor).2.2.1 (by decide) (by decide),
   (move_cursor_left_right_edges 24 c3_editor).2.2.2 (by decide) (by decide)
     (by decide)⟩

/-! ### C7: draw_row and the paper band -/

/-- C7: for every row, with start = offset.x and stop = start + terminal
width: if start < PAPER_WIDTH, draw_row sets the paper background, prints
the clipped content render(start, PAPER_WIDTH) followed by spaces numbering
PAPER_WIDTH − start when start > row length and PAPER_WIDTH − row length
otherwise (saturating at 0), resets the background, then prints
render(PAPER_WIDTH, stop) under the default background; if
start ≥ PAPER_WIDTH it prints only render(start, stop) under the default
background. -/
theorem draw_row_paper_band (width offset_x : Nat) (r : List Char) :
    (offset_x < PAPER_WIDTH →
      draw_row width offset_x r =
        [OutEvent.setBg PAPER_BG_COLOR,
         OutEvent.text (render r offset_x PAPER_WIDTH),
         OutEvent.text (List.replicate
           (if offset_x > r.length then PAPER_WIDTH - offset_x
            else PAPER_WIDTH - r.length) ' '),
         OutEvent.resetBg,
         OutEvent.text (render r PAPER_WIDTH (offset_x + width) ++ CRLF)]) ∧
    (PAPER_WIDTH ≤ offset_x →
      draw_row width offset_x r =
        [OutEvent.text (render r offset_x (offset_x + width) ++ CRLF)]) := by
  refine ⟨fun h => ?_, fun h => ?_⟩
  · simp only [draw_row]
    rw [if_pos h]
  · simp only [draw_row]
    rw [if_neg (by omega)]

/-- C7 witness: the paper-band branch of the theorem at width 5, offset 0,
on the two-character row "hi". -/
theorem draw_row_paper_band_witness :
    (0 : Nat) < PAPER_WIDTH ∧
    draw_row 5 0 ['h', 'i'] =
      [OutEvent.setBg PAPER_BG_COLOR,
       OutEvent.text (render ['h', 'i'] 0 PAPER_WIDTH),
       OutEvent.text (List.replicate
         (if 0 > (['h', 'i'] : List Char).length then PAPER_WIDTH - 0
          else PAPER_WIDTH - (['h', 'i'] : List Char).length) ' '),
       OutEvent.resetBg,
       OutEvent.text (render ['h', 'i'] PAPER_WIDTH (0 + 5) ++ CRLF)] :=
  ⟨by decide, (draw_row_paper_band 5 0 ['h', 'i']).1 (by decide)⟩

/-! ### C8: should_quit starts false and only Ctrl-C sets it -/

/-- Any key other than Ctrl-C leaves `should_quit` unchanged across one
`process_keypress`. -/
theorem process_keypress_quit_frame (width height : Nat) (key : Key)
    (e : Editor) (hk : key ≠ Key.ctrl 'c') :
    (process_keypress width height key e).should_quit = e.should_quit := by
  cases key
  case ctrl c =>
    have hc : ¬ c = 'c' := fun h => hk (by rw [h])
    simp only [process_keypress, if_neg hc]
    exact (scroll_frame width height e).2.1
  all_goals
    simp only [process_keypress]
    rw [(scroll_frame width height _).2.1]
    try exact (move_cursor_frame height _ e).2.1

/-- Folding `process_keypress` over keys that do not include Ctrl-C leaves
`should_quit` unchanged. -/
theorem foldl_keypress_quit_frame (width height : Nat) (ks : List Key)
    (e : Editor) (hks : Key.ctrl 'c' ∉ ks) :
    (ks.foldl (fun e k => process_keypress width height k e) e).should_quit
      = e.should_quit := by
  induction ks generalizing e with
  | nil => rfl
  | cons k ks ih =>
      have hk : k ≠ Key.ctrl 'c' := fun h => hks (by simp [h])
      have hks' : Key.ctrl 'c' ∉ ks := fun h => hks (List.mem_cons_of_mem _ h)
      simp only [List.foldl_cons]
      rw [ih _ hks', process_keypress_quit_frame width height k e hk]

/-- C8: in every run of the control loop, should_quit starts false and
remains false over any sequence of keys that does not contain Ctrl-C; and
a single step on any key other than Ctrl-C never changes should_quit (so
only the designated quit key combination ever sets it). -/
theorem should_quit_only_on_ctrl_c (width height : Nat)
    (doc : List (List Char)) (ks : List Key) :
    (init_editor doc).should_quit = false ∧
    (Key.ctrl 'c' ∉ ks →
      (run_keys width height doc ks).should_quit = false) ∧
    (∀ e k, k ≠ Key.ctrl 'c' →
      (process_keypress width height k e).should_quit = e.should_quit) := by
  refine ⟨rfl, fun h => ?_,
    fun e k hk => process_keypress_quit_frame width height k e hk⟩
  rw [run_keys, foldl_keypress_quit_frame width height ks (init_editor doc) h]
  rfl

/-- C8 witness: the theorem at terminal size 80 × 24, a one-row document,
and the key sequence [Up, Char c]: neither key is Ctrl-C, and should_quit
stays false. -/
theorem should_quit_only_on_ctrl_c_witness :
    (init_editor [['a']]).should_quit = false ∧
    Key.ctrl 'c' ∉ [Key.up, Key.char 'c'] ∧
    (run_keys 80 24 [['a']] [Key.up, Key.char 'c']).should_quit = false ∧
    Key.up ≠ Key.ctrl 'c' ∧
    (process_keypress 80 24 Key.up (init_editor [['a']])).should_quit =
      (init_editor [['a']]).should_quit :=
  ⟨by decide, by decide,
   (should_quit_only_on_ctrl_c 80 24 [['a']] [Key.up, Key.char 'c']).2.1
     (by decide),
   by decide,
   (should_quit_only_on_ctrl_c 80 24 [['a']] [Key.up, Key.char 'c']).2.2
     (init_editor [['a']]) Key.up (by decide)⟩

/-! ### C9: the status bar -/

/-- C9 (counterexample): at width 1 the status bar's single printed
character is '|', not a space: the emitted events are the setBg/text/reset
triple with text "|", and differ from the all-spaces bar the claim
predicts. -/
theorem draw_status_bar_counterexample :
    draw_status_bar 1 =
      [OutEvent.setBg STATUS_BG_COLOR, OutEvent.text ['|'],
       OutEvent.resetBg] ∧
    ¬ (draw_status_bar 1 =
       [OutEvent.setBg STATUS_BG_COLOR, OutEvent.text [' '],
        OutEvent.resetBg]) := by
  decide

/-- C9 (amended): for every terminal width, draw_status_bar emits a
full-width bar: exactly width characters, all of them '|' (pipe characters,
not spaces), printed under the status background color which is then
reset. -/
theorem draw_status_bar_full_width (width : Nat) :
    draw_status_bar width =
      [OutEvent.setBg STATUS_BG_COLOR,
       OutEvent.text (List.replicate width '|'),
       OutEvent.resetBg] ∧
    (List.replicate width '|').length = width ∧
    (List.replicate width '|').all (fun c => c == '|') = true := by
  refine ⟨rfl, by simp, ?_⟩
  simp [List.all_eq_true, List.eq_of_mem_replicate]

end Cutt
